import Mathlib

/-!
Verification of the prediction / odds-normalization core of the NBA-Model repository.

Shallow embedding conventions:
* JavaScript numbers are modelled as `ℚ` (the values occurring in this core are
  one-decimal table entries and arithmetic over them; claims do not hinge on
  binary floating-point representation error, NaN, or -0).
* `Math.round` is round-half-up (`⌊x + 1/2⌋`), which is JS semantics.
* JS string conversion of numbers is modelled by explicit decimal printers
  (`natToString`, `intToString`, `ratToString`, `jsToFixed1`, `jsToFixed2`)
  that agree with JS output on the terminating-decimal values this code produces.
* `record[k] || default` lookups are modelled by `lookupOr`; this is faithful
  because no table value is falsy (0).
* Absent optional numeric fields of raw outcomes (which would propagate NaN in
  JS) are outside the model: `Outcome.price`/`Outcome.point` are plain numbers,
  defaulted to 0 where the source never reads them.
-/

/-- JS `Math.round`: round half toward +∞.  (`Rat.floor` is used rather than
`⌊⌋` so that concrete values reduce in the kernel; `jround_eq_floor` bridges.) -/
def jround (q : ℚ) : ℤ := (q + 1/2).floor

/-- JS `Math.round(x * 10) / 10`: round to one decimal place, as used by the source. -/
def round1 (q : ℚ) : ℚ := ((jround (q * 10) : ℤ) : ℚ) / 10

/-- Decimal digits of a natural number, most significant first (fuel-indexed). -/
def natDigits : Nat → Nat → List Char
  | 0, _ => []
  | f + 1, n => if n < 10 then [Nat.digitChar n] else natDigits f (n / 10) ++ [Nat.digitChar (n % 10)]

/-- Decimal string of a natural number (JS `Number.prototype.toString` on naturals). -/
def natToString (n : Nat) : String := ⟨natDigits (n + 1) n⟩

/-- Decimal string of an integer (JS number stringification of integral values). -/
def intToString (n : ℤ) : String :=
  if n < 0 then "-" ++ natToString (-n).toNat else natToString n.toNat

/-- Fractional digits of `q ∈ [0,1)`, up to `fuel` places, stopping at 0
(models JS shortest-terminating-decimal printing for terminating values). -/
def fracDigits : Nat → ℚ → List Char
  | 0, _ => []
  | f + 1, q => if q = 0 then [] else Nat.digitChar (q * 10).floor.toNat :: fracDigits f (q * 10 - (q * 10).floor)

/-- Decimal string of a non-negative rational. -/
def nonnegRatToString (q : ℚ) : String :=
  if q - q.floor = 0 then natToString q.floor.toNat
  else natToString q.floor.toNat ++ "." ++ ⟨fracDigits 17 (q - q.floor)⟩

/-- JS number-to-string for a rational value. -/
def ratToString (q : ℚ) : String :=
  if q < 0 then "-" ++ nonnegRatToString (-q) else nonnegRatToString q

/-- Digits of `m` scaled by 10: integer part, a dot, one fractional digit. -/
def fixed1Str (m : Nat) : String :=
  natToString (m / 10) ++ "." ++ ⟨[Nat.digitChar (m % 10)]⟩

/-- JS `toFixed(1)`: one decimal place, nearest with ties toward +∞. -/
def jsToFixed1 (q : ℚ) : String :=
  let n := jround (q * 10)
  if n < 0 then "-" ++ fixed1Str (-n).toNat else fixed1Str n.toNat

/-- Digits of `m` scaled by 100: integer part, a dot, two fractional digits. -/
def fixed2Str (m : Nat) : String :=
  natToString (m / 100) ++ "." ++ ⟨[Nat.digitChar (m / 10 % 10), Nat.digitChar (m % 10)]⟩

/-- JS `toFixed(2)`: two decimal places. -/
def jsToFixed2 (q : ℚ) : String :=
  let n := jround (q * 100)
  if n < 0 then "-" ++ fixed2Str (-n).toNat else fixed2Str n.toNat

/-- JS `String.prototype.includes` on char lists. -/
def listContainsSub (hay needle : List Char) : Bool :=
  match hay with
  | [] => needle.isEmpty
  | _ :: t => needle.isPrefixOf hay || listContainsSub t needle

/-- JS `toLowerCase` (ASCII range, which covers all inputs of this core). -/
def strToLower (s : String) : String := ⟨s.data.map Char.toLower⟩

/-- JS `s.includes(sub)`. -/
def strContains (s sub : String) : Bool := listContainsSub s.data sub.data

/-- JS `table[key] || dflt` on an association table whose values are never falsy. -/
def lookupOr {α : Type} (l : List (String × α)) (k : String) (d : α) : α :=
  match l.find? (fun p => p.1 == k) with
  | some p => p.2
  | none => d

-- Team strength ratings (src/client/src/lib/betting-api.ts, TEAM_RATINGS).
-- All source values are integer literals, so the table is carried over ℤ.
def TEAM_RATINGS : List (String × ℤ) := [
  ("Boston Celtics", 95),
  ("Denver Nuggets", 89),
  ("Oklahoma City Thunder", 88),
  ("Minnesota Timberwolves", 87),
  ("Dallas Mavericks", 86),
  ("New York Knicks", 85),
  ("Philadelphia 76ers", 84),
  ("Los Angeles Clippers", 84),
  ("Cleveland Cavaliers", 83),
  ("Milwaukee Bucks", 82),
  ("Phoenix Suns", 81),
  ("New Orleans Pelicans", 80),
  ("Miami Heat", 80),
  ("Sacramento Kings", 79),
  ("Los Angeles Lakers", 78),
  ("Golden State Warriors", 78),
  ("Indiana Pacers", 77),
  ("Orlando Magic", 77),
  ("Chicago Bulls", 74),
  ("Utah Jazz", 72),
  ("Memphis Grizzlies", 71),
  ("Atlanta Hawks", 70),
  ("Brooklyn Nets", 69),
  ("Toronto Raptors", 68),
  ("Houston Rockets", 67),
  ("San Antonio Spurs", 65),
  ("Charlotte Hornets", 63),
  ("Portland Trail Blazers", 62),
  ("Washington Wizards", 60),
  ("Detroit Pistons", 58)]

-- Average points scored per team (TEAM_AVG_POINTS).
def TEAM_AVG_POINTS : List (String × ℚ) := [
  ("Indiana Pacers", 123.3),
  ("Milwaukee Bucks", 119.5),
  ("Boston Celtics", 119.3),
  ("Sacramento Kings", 118.1),
  ("Atlanta Hawks", 117.5),
  ("Dallas Mavericks", 116.8),
  ("Golden State Warriors", 116.8),
  ("Minnesota Timberwolves", 116.3),
  ("Denver Nuggets", 114.9),
  ("Oklahoma City Thunder", 114.4),
  ("Los Angeles Lakers", 113.8),
  ("Houston Rockets", 113.6),
  ("New Orleans Pelicans", 113.5),
  ("Phoenix Suns", 113.1),
  ("Utah Jazz", 113.1),
  ("Chicago Bulls", 113.0),
  ("Philadelphia 76ers", 112.5),
  ("Cleveland Cavaliers", 112.2),
  ("Brooklyn Nets", 112.2),
  ("San Antonio Spurs", 112.2),
  ("New York Knicks", 112.0),
  ("Orlando Magic", 111.4),
  ("Toronto Raptors", 111.3),
  ("Washington Wizards", 111.3),
  ("Los Angeles Clippers", 111.1),
  ("Miami Heat", 109.3),
  ("Charlotte Hornets", 107.9),
  ("Detroit Pistons", 106.7),
  ("Memphis Grizzlies", 106.7),
  ("Portland Trail Blazers", 106.5)]

-- Average points allowed per team (TEAM_AVG_POINTS_ALLOWED).
def TEAM_AVG_POINTS_ALLOWED : List (String × ℚ) := [
  ("Boston Celtics", 107.9),
  ("Minnesota Timberwolves", 107.9),
  ("Orlando Magic", 108.4),
  ("Cleveland Cavaliers", 109.3),
  ("Oklahoma City Thunder", 109.4),
  ("Miami Heat", 109.6),
  ("New York Knicks", 109.7),
  ("Denver Nuggets", 110.0),
  ("New Orleans Pelicans", 110.6),
  ("Los Angeles Clippers", 111.3),
  ("Houston Rockets", 111.3),
  ("Philadelphia 76ers", 112.2),
  ("Phoenix Suns", 113.3),
  ("Golden State Warriors", 113.3),
  ("Milwaukee Bucks", 113.5),
  ("Brooklyn Nets", 114.7),
  ("Sacramento Kings", 115.0),
  ("Dallas Mavericks", 115.1),
  ("Toronto Raptors", 115.1),
  ("Memphis Grizzlies", 115.3),
  ("Indiana Pacers", 115.8),
  ("Portland Trail Blazers", 116.4),
  ("Chicago Bulls", 116.6),
  ("Los Angeles Lakers", 117.0),
  ("Utah Jazz", 117.3),
  ("Atlanta Hawks", 118.1),
  ("Detroit Pistons", 118.5),
  ("Charlotte Hornets", 118.9),
  ("San Antonio Spurs", 119.3),
  ("Washington Wizards", 120.9)]

/-- Home court advantage in points (betting-api.ts). -/
def HOME_COURT_ADVANTAGE : ℚ := 2.5

/-- Prediction model produced by the GameModal effect (GameModal.tsx lines 74-141). -/
structure PredictionModel where
  predicted_total : ℚ
  predicted_spread : ℚ
  home_win_probability : ℤ
  key_factors : List String
deriving DecidableEq

/-- Key factors list (GameModal.tsx lines 90-125).  The two trailing
injury factors depend on externally fetched `game.prediction` data and are
conditional on it; they are outside this two-team-name model. -/
def keyFactors (homeTeam awayTeam : String) : List String :=
  let homeRating : ℤ := lookupOr TEAM_RATINGS homeTeam 75
  let awayRating : ℤ := lookupOr TEAM_RATINGS awayTeam 75
  let homeAvgScore : ℚ := lookupOr TEAM_AVG_POINTS homeTeam 112
  let awayAvgScore : ℚ := lookupOr TEAM_AVG_POINTS awayTeam 112
  let homeAvgAllowed : ℚ := lookupOr TEAM_AVG_POINTS_ALLOWED homeTeam 113
  let awayAvgAllowed : ℚ := lookupOr TEAM_AVG_POINTS_ALLOWED awayTeam 113
  let homeScoringEfficiency := homeAvgScore / homeAvgAllowed
  let awayScoringEfficiency := awayAvgScore / awayAvgAllowed
  let f1 :=
    if homeScoringEfficiency > awayScoringEfficiency then
      homeTeam ++ " has better scoring efficiency (" ++ jsToFixed2 homeScoringEfficiency ++
        ") than " ++ awayTeam ++ " (" ++ jsToFixed2 awayScoringEfficiency ++ ")"
    else
      awayTeam ++ " has better scoring efficiency (" ++ jsToFixed2 awayScoringEfficiency ++
        ") than " ++ homeTeam ++ " (" ++ jsToFixed2 homeScoringEfficiency ++ ")"
  let f2 :=
    if homeAvgAllowed < awayAvgAllowed then
      homeTeam ++ " has stronger defense (" ++ jsToFixed1 homeAvgAllowed ++
        " PPG allowed) than " ++ awayTeam ++ " (" ++ jsToFixed1 awayAvgAllowed ++ " PPG allowed)"
    else
      awayTeam ++ " has stronger defense (" ++ jsToFixed1 awayAvgAllowed ++
        " PPG allowed) than " ++ homeTeam ++ " (" ++ jsToFixed1 homeAvgAllowed ++ " PPG allowed)"
  let f3 :=
    if homeAvgScore > awayAvgScore then
      homeTeam ++ " has higher scoring offense (" ++ jsToFixed1 homeAvgScore ++
        " PPG) than " ++ awayTeam ++ " (" ++ jsToFixed1 awayAvgScore ++ " PPG)"
    else
      awayTeam ++ " has higher scoring offense (" ++ jsToFixed1 awayAvgScore ++
        " PPG) than " ++ homeTeam ++ " (" ++ jsToFixed1 homeAvgScore ++ " PPG)"
  let f4 :=
    if homeRating > awayRating then
      homeTeam ++ " has higher team rating (" ++ intToString homeRating ++
        ") than " ++ awayTeam ++ " (" ++ intToString awayRating ++ ")"
    else
      awayTeam ++ " has higher team rating (" ++ intToString awayRating ++
        ") than " ++ homeTeam ++ " (" ++ intToString homeRating ++ ")"
  let f5 := "Home court advantage adds " ++ jsToFixed1 HOME_COURT_ADVANTAGE ++
    " points to " ++ homeTeam ++ "\x27s rating"
  [f1, f2, f3, f4, f5]

/-- Team Rating Predictor (GameModal.tsx lines 74-141): prediction model for a
home/away team-name pair. -/
def predict (homeTeam awayTeam : String) : PredictionModel :=
  let homeRating : ℤ := lookupOr TEAM_RATINGS homeTeam 75
  let awayRating : ℤ := lookupOr TEAM_RATINGS awayTeam 75
  let rawSpread : ℚ := ((awayRating - homeRating : ℤ) : ℚ) + HOME_COURT_ADVANTAGE
  let spread := round1 rawSpread
  let homeAvgScore : ℚ := lookupOr TEAM_AVG_POINTS homeTeam 112
  let awayAvgScore : ℚ := lookupOr TEAM_AVG_POINTS awayTeam 112
  let homeAvgAllowed : ℚ := lookupOr TEAM_AVG_POINTS_ALLOWED homeTeam 113
  let awayAvgAllowed : ℚ := lookupOr TEAM_AVG_POINTS_ALLOWED awayTeam 113
  let predictedHomeScore := (homeAvgScore + awayAvgAllowed) / 2
  let predictedAwayScore := (awayAvgScore + homeAvgAllowed) / 2
  let baseTotal := round1 (predictedHomeScore + predictedAwayScore)
  let homeWinProb : ℤ := max (min (jround (50 - spread * 3.3)) 95) 5
  { predicted_total := baseTotal
    predicted_spread := spread
    home_win_probability := homeWinProb
    key_factors := keyFactors homeTeam awayTeam }

/-- The computable `Rat.floor` agrees with the floor of the `FloorRing` instance. -/
theorem ratFloor_eq (q : ℚ) : q.floor = ⌊q⌋ := by
  rw [Rat.floor_def', Rat.floor_def]

/-- Rounding via `jround` is round-half-up in terms of `⌊⌋`. -/
theorem jround_eq_floor (q : ℚ) : jround q = ⌊q + 1/2⌋ := ratFloor_eq _

/-- A quoted outcome of a raw bookmaker market (`{name, price?, point?}`).
The numeric fields are JS numbers; a field the source never reads on a given
market kind is carried as 0.  (An outcome whose read field is absent would
propagate NaN in JS; such degenerate payloads are outside this model.) -/
structure Outcome where
  name : String
  price : ℚ
  point : ℚ
deriving DecidableEq

/-- A raw bookmaker market (`{key, outcomes}`). -/
structure Market where
  key : String
  outcomes : List Outcome
deriving DecidableEq

/-- A raw bookmaker quote (`{key, title, markets}`); an absent `markets`
array behaves like an empty one under `markets?.find`, and is so modelled. -/
structure Bookmaker where
  key : String
  title : String
  markets : List Market
deriving DecidableEq

/-- The odds sub-object of a `BettingSite` (types/game.ts). -/
structure SiteOdds where
  homeTeamOdds : String
  awayTeamOdds : String
  overUnder : String
deriving DecidableEq

/-- The `BettingSite` output record (types/game.ts). -/
structure BettingSite where
  name : String
  logo : String
  url : String
  odds : SiteOdds
deriving DecidableEq

/-- Possible Caesars keys (betting-api.ts `caesarsVariants`). -/
def caesarsVariants : List String := ["caesars", "caesarssportsbook", "caesars_palace", "williamhill_us"]

/-- Alternative-name key mapping (betting-api.ts `keyMapping`). -/
def keyMapping : List (String × String) := [
  ("williamhill_us", "caesars"),
  ("caesarssportsbook", "caesars"),
  ("caesars_palace", "caesars"),
  ("dk", "draftkings"),
  ("fd", "fanduel"),
  ("mgm", "betmgm")]

/-- JS `keyMapping[bookmaker.key.toLowerCase()] || bookmaker.key.toLowerCase()`. -/
def standardKey (key : String) : String := lookupOr keyMapping (strToLower key) (strToLower key)

/-- The bookmaker filter of `parseOddsApiResponse` (betting-api.ts lines 63-67). -/
def filteredBookmakers (bookmakers : List Bookmaker) : List Bookmaker :=
  bookmakers.filter (fun b =>
    ["betmgm", "draftkings", "fanduel"].contains (standardKey b.key) ||
    caesarsVariants.contains (strToLower b.key))

/-- The hasCaesars test of `parseOddsApiResponse` (lines 73-75). -/
def hasCaesarsIn (bookmakers : List Bookmaker) : Bool :=
  bookmakers.any (fun b =>
    caesarsVariants.contains (strToLower b.key) || strContains (strToLower b.title) "caesars")

/-- Outcome matcher shared by `parseOddsApiResponse` and `generateMockCaesars`:
case-insensitive exact name match, containment of the literal token
(`"home"`/`"away"`), or containment of the outcome name in the team name when
the name is longer than 3 characters. -/
def findTeamOutcome (team token : String) (outcomes : List Outcome) : Option Outcome :=
  outcomes.find? (fun o =>
    let nm := strToLower o.name
    nm == strToLower team || strContains nm token ||
      (strContains (strToLower team) nm && decide (3 < nm.length)))

/-- The locator of the over outcome: name equal to "Over" or "over". -/
def findOverOutcome (outcomes : List Outcome) : Option Outcome :=
  outcomes.find? (fun o => o.name == "Over" || o.name == "over")

/-- Accumulation step of `generateMockCaesars` (betting-api.ts lines 171-199):
state is (homeOddsSum, awayOddsSum, totalPointsSum, validBookmakers). -/
def mockStep (homeTeam awayTeam : String) (st : ℚ × ℚ × ℚ × Nat) (b : Bookmaker) :
    ℚ × ℚ × ℚ × Nat :=
  match b.markets.find? (fun m => m.key == "h2h"), b.markets.find? (fun m => m.key == "totals") with
  | some h2hMarket, some totalsMarket =>
    match findTeamOutcome homeTeam "home" h2hMarket.outcomes,
          findTeamOutcome awayTeam "away" h2hMarket.outcomes,
          findOverOutcome totalsMarket.outcomes with
    | some ho, some ao, some oo => (st.1 + ho.price, st.2.1 + ao.price, st.2.2.1 + oo.point, st.2.2.2 + 1)
    | _, _, _ => st
  | _, _ => st

/-- Function `generateMockCaesars` (betting-api.ts lines 142-220): synthesize a Caesars
quote by averaging the other bookmakers; fall back to fixed defaults when no
quote has both markets with matchable outcomes. -/
def generateMockCaesars (bookmakers : List Bookmaker) (homeTeam awayTeam : String) : Bookmaker :=
  let s := bookmakers.foldl (mockStep homeTeam awayTeam) (0, 0, 0, 0)
  let validBookmakers := s.2.2.2
  if 0 < validBookmakers then
    let homeOdds : ℚ := (jround (s.1 / (validBookmakers : ℚ)) : ℤ)
    let awayOdds : ℚ := (jround (s.2.1 / (validBookmakers : ℚ)) : ℤ)
    let totalPoints : ℚ := round1 (s.2.2.1 / (validBookmakers : ℚ))
    { key := "caesars", title := "Caesars",
      markets := [
        { key := "h2h", outcomes := [⟨homeTeam, homeOdds + 5, 0⟩, ⟨awayTeam, awayOdds - 5, 0⟩] },
        { key := "totals", outcomes := [⟨"Over", 0, totalPoints - 0.5⟩, ⟨"Under", 0, 0⟩] }] }
  else
    { key := "caesars", title := "Caesars",
      markets := [
        { key := "h2h", outcomes := [⟨homeTeam, -110, 0⟩, ⟨awayTeam, -110, 0⟩] },
        { key := "totals", outcomes := [⟨"Over", 0, 215.5⟩, ⟨"Under", 0, 0⟩] }] }

/-- Function `formatAmericanOdds` (betting-api.ts lines 225-250). -/
def formatAmericanOdds (odds : Option ℚ) : String :=
  match odds with
  | none => "+100"
  | some v =>
    if 1 < v ∧ v < 10 then
      if 2 ≤ v then "+" ++ intToString (jround ((v - 1) * 100))
      else intToString (jround (-100 / (v - 1)))
    else
      if 0 ≤ v then "+" ++ ratToString v else ratToString v

/-- Function `getLogoFileName` (betting-api.ts lines 255-264). -/
def getLogoFileName (key : String) : String :=
  lookupOr [
    ("draftkings", "draft_kings.png"),
    ("fanduel", "fan_duel.png"),
    ("betmgm", "betMGM.png"),
    ("caesars", "caesers_sportsbook.png")] key (key ++ ".png")

/-- Function `getBettingSiteUrl` (betting-api.ts lines 269-279). -/
def getBettingSiteUrl (key : String) : String :=
  lookupOr [
    ("draftkings", "https://sportsbook.draftkings.com/leagues/basketball/nba"),
    ("fanduel", "https://sportsbook.fanduel.com/navigation/nba"),
    ("betmgm", "https://sports.betmgm.com/en/sports/basketball-7/betting/usa-9/nba-6004"),
    ("caesars", "https://www.caesars.com/sportsbook-and-casino/sports/basketball/nba")]
    key "https://www.espn.com/nba/lines"

/-- Function `generateDataDrivenOdds` (betting-api.ts lines 395-479): deterministic
model-derived fallback odds.  The unused `gameId` parameter is dropped. -/
def generateDataDrivenOdds (homeTeam awayTeam : String) : List BettingSite :=
  let homeRating : ℤ := lookupOr TEAM_RATINGS homeTeam 75
  let awayRating : ℤ := lookupOr TEAM_RATINGS awayTeam 75
  let rawSpread : ℚ := ((awayRating - homeRating : ℤ) : ℚ) + HOME_COURT_ADVANTAGE
  let spread := round1 rawSpread
  let homeAvgScore : ℚ := lookupOr TEAM_AVG_POINTS homeTeam 112
  let awayAvgScore : ℚ := lookupOr TEAM_AVG_POINTS awayTeam 112
  let homeAvgAllowed : ℚ := lookupOr TEAM_AVG_POINTS_ALLOWED homeTeam 113
  let awayAvgAllowed : ℚ := lookupOr TEAM_AVG_POINTS_ALLOWED awayTeam 113
  let predictedHomeScore := (homeAvgScore + awayAvgAllowed) / 2
  let predictedAwayScore := (awayAvgScore + homeAvgAllowed) / 2
  let baseTotal := round1 (predictedHomeScore + predictedAwayScore)
  let homeWinProb : ℤ := max (min (jround (50 - spread * 3.3)) 95) 5
  let favoriteOdds : ℤ :=
    if 50 ≤ homeWinProb then jround ((-100 * (homeWinProb : ℚ)) / ((100 : ℚ) - (homeWinProb : ℚ)))
    else jround ((-100 * ((100 : ℚ) - (homeWinProb : ℚ))) / (homeWinProb : ℚ))
  let underdogOdds : ℤ :=
    if 50 ≤ homeWinProb then jround ((100 * ((100 : ℚ) - (homeWinProb : ℚ))) / (homeWinProb : ℚ))
    else jround ((100 * (homeWinProb : ℚ)) / ((100 : ℚ) - (homeWinProb : ℚ)))
  let homeTeamOdds : ℤ := if 50 ≤ homeWinProb then favoriteOdds else underdogOdds
  let awayTeamOdds : ℤ := if 50 ≤ homeWinProb then underdogOdds else favoriteOdds
  [
    { name := "DraftKings",
      logo := "/betting-logos/draft_kings.png",
      url := "https://sportsbook.draftkings.com/leagues/basketball/nba",
      odds := {
        homeTeamOdds := intToString homeTeamOdds,
        awayTeamOdds := if 0 < awayTeamOdds then "+" ++ intToString awayTeamOdds else intToString awayTeamOdds,
        overUnder := "O/U " ++ jsToFixed1 (baseTotal + 0.5) } },
    { name := "FanDuel",
      logo := "/betting-logos/fan_duel.png",
      url := "https://sportsbook.fanduel.com/navigation/nba",
      odds := {
        homeTeamOdds := intToString (homeTeamOdds - 5),
        awayTeamOdds := if 0 < awayTeamOdds then "+" ++ intToString (awayTeamOdds + 5) else intToString (awayTeamOdds - 5),
        overUnder := "O/U " ++ jsToFixed1 (baseTotal - 1) } },
    { name := "BetMGM",
      logo := "/betting-logos/betMGM.png",
      url := "https://sports.betmgm.com/en/sports/basketball-7/betting/usa-9/nba-6004",
      odds := {
        homeTeamOdds := intToString (homeTeamOdds - 10),
        awayTeamOdds := if 0 < awayTeamOdds then "+" ++ intToString (awayTeamOdds - 5) else intToString (awayTeamOdds - 10),
        overUnder := "O/U " ++ jsToFixed1 (baseTotal + 1.5) } },
    { name := "Caesars",
      logo := "/betting-logos/caesers_sportsbook.png",
      url := "https://www.caesars.com/sportsbook-and-casino/sports/basketball/nba",
      odds := {
        homeTeamOdds := intToString (homeTeamOdds + 7),
        awayTeamOdds := if 0 < awayTeamOdds then "+" ++ intToString (awayTeamOdds - 10) else intToString (awayTeamOdds + 7),
        overUnder := "O/U " ++ jsToFixed1 baseTotal } }]

/-- Display name of a converted bookmaker: "Caesars" for the caesars key,
otherwise title, falling back to key and then to "Unknown". -/
def displayNameOf (b : Bookmaker) : String :=
  if standardKey b.key == "caesars" then "Caesars"
  else if b.title ≠ "" then b.title
  else if b.key ≠ "" then b.key
  else "Unknown"

/-- Conversion of one (filtered or synthesized) bookmaker quote to a
`BettingSite` (the `map` body of `parseOddsApiResponse`, lines 91-136). -/
def convertBookmaker (homeTeam awayTeam : String) (b : Bookmaker) : BettingSite :=
  let sk := standardKey b.key
  let h2hMarket := b.markets.find? (fun m => m.key == "h2h")
  let totalsMarket := b.markets.find? (fun m => m.key == "totals")
  let homeOutcome := h2hMarket.bind (fun m => findTeamOutcome homeTeam "home" m.outcomes)
  let awayOutcome := h2hMarket.bind (fun m => findTeamOutcome awayTeam "away" m.outcomes)
  let overOutcome := totalsMarket.bind (fun m => findOverOutcome m.outcomes)
  let homeTeamOdds := (homeOutcome.map Outcome.price).getD 100
  let awayTeamOdds := (awayOutcome.map Outcome.price).getD 100
  let total := (overOutcome.map Outcome.point).getD 215
  { name := displayNameOf b,
    logo := "/betting-logos/" ++ getLogoFileName sk,
    url := getBettingSiteUrl sk,
    odds := {
      homeTeamOdds := formatAmericanOdds (some homeTeamOdds),
      awayTeamOdds := formatAmericanOdds (some awayTeamOdds),
      overUnder := "O/U " ++ ratToString total } }

/-- Function `parseOddsApiResponse` (betting-api.ts lines 32-137), over the raw
bookmaker list and the two team names (the odds normalizer `normalize`). -/
def parseOddsApiResponse (bookmakers : List Bookmaker) (homeTeam awayTeam : String) : List BettingSite :=
  if bookmakers.isEmpty then generateDataDrivenOdds homeTeam awayTeam
  else
    let fb := filteredBookmakers bookmakers
    let fb2 :=
      if !hasCaesarsIn fb && 0 < fb.length then fb ++ [generateMockCaesars fb homeTeam awayTeam]
      else fb
    if fb2.isEmpty then generateDataDrivenOdds homeTeam awayTeam
    else fb2.map (convertBookmaker homeTeam awayTeam)


/-- Clamp of an integer to the closed interval from lo to hi, as in the spec. -/
def clamp (x lo hi : ℤ) : ℤ := max lo (min x hi)

/-- Rounding to one decimal is the identity on an integer plus the home-court
constant 2.5 (the only spreads the predictor produces, as ratings are integers). -/
theorem round1_int_add_hca (k : ℤ) :
    round1 ((k : ℚ) + HOME_COURT_ADVANTAGE) = (k : ℚ) + HOME_COURT_ADVANTAGE := by
  simp only [round1, jround_eq_floor]
  rw [show ((k : ℚ) + HOME_COURT_ADVANTAGE) * 10 + 1/2 = ((10 * k + 25 : ℤ) : ℚ) + 1/2 by
    simp only [HOME_COURT_ADVANTAGE]; push_cast; ring]
  rw [Int.floor_int_add]
  rw [show ⌊(1/2 : ℚ)⌋ = 0 by norm_num]
  simp only [HOME_COURT_ADVANTAGE]
  push_cast
  ring_nf

/-- C2: for every pair of team-name strings the predictor computes
`predictedSpread = round1((awayStrength - homeStrength) + 2.5)` and
`predictedTotal = round1((homePointsFor + awayPointsAllowed)/2 +
(awayPointsFor + homePointsAllowed)/2)`, where an absent team contributes the
defaults strength 75, pointsFor 112, pointsAllowed 113. -/
theorem spec_C2_predictor_formulas (home away : String) :
    (predict home away).predicted_spread =
      round1 ((((lookupOr TEAM_RATINGS away 75 : ℤ) : ℚ) -
        ((lookupOr TEAM_RATINGS home 75 : ℤ) : ℚ)) + 2.5) ∧
    (predict home away).predicted_total =
      round1 ((lookupOr TEAM_AVG_POINTS home 112 + lookupOr TEAM_AVG_POINTS_ALLOWED away 113) / 2 +
        (lookupOr TEAM_AVG_POINTS away 112 + lookupOr TEAM_AVG_POINTS_ALLOWED home 113) / 2) := by
  constructor
  · simp only [predict]
    congr 1
    simp only [HOME_COURT_ADVANTAGE]
    push_cast
    ring
  · rfl

/-- C3: for every pair of team-name strings (including unknown teams) the home
win probability is `clamp(round(50 - spread * 3.3), 5, 95)` and hence always
lies in the closed interval `[5, 95]`. -/
theorem spec_C3_win_probability_clamped (home away : String) :
    (predict home away).home_win_probability =
      clamp (jround (50 - (predict home away).predicted_spread * 3.3)) 5 95 ∧
    5 ≤ (predict home away).home_win_probability ∧
    (predict home away).home_win_probability ≤ 95 := by
  simp only [predict, clamp]
  refine ⟨max_comm _ _, le_max_right _ _, max_le (min_le_right _ _) (by norm_num)⟩

/-- C4: predicted spreads are swap-symmetric up to the home-court constant:
`predict(a,b).predictedSpread + predict(b,a).predictedSpread = 2 * 2.5 = 5`
for every pair of team names. -/
theorem spec_C4_spread_swap_symmetry (a b : String) :
    (predict a b).predicted_spread + (predict b a).predicted_spread =
      2 * HOME_COURT_ADVANTAGE := by
  simp only [predict]
  rw [round1_int_add_hca, round1_int_add_hca]
  push_cast
  ring

/-- Scoring efficiency (`pointsFor / pointsAllowed`) of a team, with the
table defaults for absent teams. -/
def scoringEfficiency (t : String) : ℚ :=
  lookupOr TEAM_AVG_POINTS t 112 / lookupOr TEAM_AVG_POINTS_ALLOWED t 113

/-- C9: every key-factor comparison is strict in favor of the home team, so
whenever the compared statistic of a pair ties exactly — the scoring-efficiency
ratio, the points allowed, the points scored, or the strength rating,
independently of the other statistics — the corresponding factor string
attributes the lead to the away team. -/
theorem spec_C9_ties_attribute_away (home away : String) :
    (scoringEfficiency home = scoringEfficiency away →
      (keyFactors home away).get? 0 = some (away ++ " has better scoring efficiency (" ++
        jsToFixed2 (scoringEfficiency away) ++ ") than " ++ home ++ " (" ++
        jsToFixed2 (scoringEfficiency home) ++ ")")) ∧
    (lookupOr TEAM_AVG_POINTS_ALLOWED home 113 = lookupOr TEAM_AVG_POINTS_ALLOWED away 113 →
      (keyFactors home away).get? 1 = some (away ++ " has stronger defense (" ++
        jsToFixed1 (lookupOr TEAM_AVG_POINTS_ALLOWED away 113) ++ " PPG allowed) than " ++
        home ++ " (" ++ jsToFixed1 (lookupOr TEAM_AVG_POINTS_ALLOWED home 113) ++ " PPG allowed)")) ∧
    (lookupOr TEAM_AVG_POINTS home 112 = lookupOr TEAM_AVG_POINTS away 112 →
      (keyFactors home away).get? 2 = some (away ++ " has higher scoring offense (" ++
        jsToFixed1 (lookupOr TEAM_AVG_POINTS away 112) ++ " PPG) than " ++
        home ++ " (" ++ jsToFixed1 (lookupOr TEAM_AVG_POINTS home 112) ++ " PPG)")) ∧
    (lookupOr TEAM_RATINGS home 75 = lookupOr TEAM_RATINGS away 75 →
      (keyFactors home away).get? 3 = some (away ++ " has higher team rating (" ++
        intToString (lookupOr TEAM_RATINGS away 75) ++ ") than " ++
        home ++ " (" ++ intToString (lookupOr TEAM_RATINGS home 75) ++ ")")) := by
  refine ⟨fun h => ?_, fun h => ?_, fun h => ?_, fun h => ?_⟩
  · simp only [scoringEfficiency] at h
    simp only [keyFactors, scoringEfficiency, List.get?_cons_zero, h, gt_iff_lt,
      lt_self_iff_false, if_false]
  · simp only [keyFactors, List.get?_cons_succ, List.get?_cons_zero, h,
      lt_self_iff_false, if_false]
  · simp only [keyFactors, List.get?_cons_succ, List.get?_cons_zero, h, gt_iff_lt,
      lt_self_iff_false, if_false]
  · simp only [keyFactors, List.get?_cons_succ, List.get?_cons_zero, h, gt_iff_lt,
      lt_self_iff_false, if_false]

/-- Witness for C9: genuine partial-tie pairs from the tables, one per
statistic — the 76ers and the Clippers tie only on rating (84), the Celtics
and the Timberwolves on points allowed (107.9), the Mavericks and the Warriors
on points scored (116.8) — plus an efficiency tie; each tied statistic takes
the away branch of its own factor. -/
theorem spec_C9_witness :
    (keyFactors "Philadelphia 76ers" "Los Angeles Clippers").get? 3 =
      some ("Los Angeles Clippers" ++ " has higher team rating (" ++
        intToString (lookupOr TEAM_RATINGS "Los Angeles Clippers" 75) ++ ") than " ++
        "Philadelphia 76ers" ++ " (" ++
        intToString (lookupOr TEAM_RATINGS "Philadelphia 76ers" 75) ++ ")") ∧
    (keyFactors "Boston Celtics" "Minnesota Timberwolves").get? 1 =
      some ("Minnesota Timberwolves" ++ " has stronger defense (" ++
        jsToFixed1 (lookupOr TEAM_AVG_POINTS_ALLOWED "Minnesota Timberwolves" 113) ++
        " PPG allowed) than " ++ "Boston Celtics" ++ " (" ++
        jsToFixed1 (lookupOr TEAM_AVG_POINTS_ALLOWED "Boston Celtics" 113) ++ " PPG allowed)") ∧
    (keyFactors "Dallas Mavericks" "Golden State Warriors").get? 2 =
      some ("Golden State Warriors" ++ " has higher scoring offense (" ++
        jsToFixed1 (lookupOr TEAM_AVG_POINTS "Golden State Warriors" 112) ++
        " PPG) than " ++ "Dallas Mavericks" ++ " (" ++
        jsToFixed1 (lookupOr TEAM_AVG_POINTS "Dallas Mavericks" 112) ++ " PPG)") ∧
    (keyFactors "Boston Celtics" "Boston Celtics").get? 0 =
      some ("Boston Celtics" ++ " has better scoring efficiency (" ++
        jsToFixed2 (scoringEfficiency "Boston Celtics") ++ ") than " ++
        "Boston Celtics" ++ " (" ++ jsToFixed2 (scoringEfficiency "Boston Celtics") ++ ")") :=
  ⟨(spec_C9_ties_attribute_away "Philadelphia 76ers" "Los Angeles Clippers").2.2.2 (by decide),
   (spec_C9_ties_attribute_away "Boston Celtics" "Minnesota Timberwolves").2.1 rfl,
   (spec_C9_ties_attribute_away "Dallas Mavericks" "Golden State Warriors").2.2.1 rfl,
   (spec_C9_ties_attribute_away "Boston Celtics" "Boston Celtics").1 rfl⟩

/-- The head of `"+" ++ s` is `'+'`. -/
theorem plus_append_head (s : String) : ("+" ++ s).data.head? = some '+' := by
  obtain ⟨l⟩ := s
  rfl

/-- The head of `"-" ++ s` is `'-'`. -/
theorem minus_append_head (s : String) : ("-" ++ s).data.head? = some '-' := by
  obtain ⟨l⟩ := s
  rfl

/-- A string with a head character is not empty. -/
theorem ne_empty_of_head (s : String) (c : Char) (h : s.data.head? = some c) : s ≠ "" := by
  intro he
  rw [he] at h
  exact Option.noConfusion h

/-- Rounding anything below `-1/2` with `jround` gives a negative integer. -/
theorem jround_lt_zero (q : ℚ) (h : q < -(1/2)) : jround q < 0 := by
  rw [jround_eq_floor]
  have h1 : ((⌊q + 1/2⌋ : ℤ) : ℚ) ≤ q + 1/2 := Int.floor_le _
  have h2 : ((⌊q + 1/2⌋ : ℤ) : ℚ) < 0 := by linarith
  exact_mod_cast h2

/-- The string of a negative integer starts with a minus sign. -/
theorem intToString_head_neg (n : ℤ) (h : n < 0) : (intToString n).data.head? = some '-' := by
  simp only [intToString, if_pos h]
  exact minus_append_head _

/-- Printing a natural number with `nonnegRatToString` gives its decimal digits. -/
theorem nonnegRatToString_natCast (n : ℕ) : nonnegRatToString (n : ℚ) = natToString n := by
  have hf : ((n : ℚ)).floor = (n : ℤ) := by rw [ratFloor_eq]; exact Int.floor_natCast n
  simp only [nonnegRatToString, hf]
  rw [if_pos (by push_cast; ring)]
  rw [Int.toNat_natCast]

/-- Printing a natural number with `ratToString` gives its decimal digits. -/
theorem ratToString_natCast (n : ℕ) : ratToString (n : ℚ) = natToString n := by
  simp only [ratToString]
  rw [if_neg (not_lt.mpr (by positivity)), nonnegRatToString_natCast]

/-- C6: `formatAmericanOdds` treats `1 < v < 10` as decimal odds, converting
`v ≥ 2` to `"+" ++ round((v-1)*100)` and `v < 2` to `round(-100/(v-1))`, and
otherwise treats `v` as already-American, prefixing `"+"` exactly when `v` is
non-negative; concretely `formatAmericanOdds(2.5) = "+150"` and
`formatAmericanOdds(1.91)` begins with `"-"`. -/
theorem spec_C6_format_decimal_conversion (v : ℚ) :
    formatAmericanOdds (some v) =
      (if 1 < v ∧ v < 10 then
        if 2 ≤ v then "+" ++ intToString (jround ((v - 1) * 100))
        else intToString (jround (-100 / (v - 1)))
      else if 0 ≤ v then "+" ++ ratToString v else ratToString v) ∧
    formatAmericanOdds (some 2.5) = "+150" ∧
    (formatAmericanOdds (some 1.91)).data.head? = some '-' := by
  refine ⟨rfl, ?_, ?_⟩
  · simp only [formatAmericanOdds]
    rw [if_pos (by norm_num : (1:ℚ) < 2.5 ∧ (2.5:ℚ) < 10), if_pos (by norm_num : (2:ℚ) ≤ 2.5)]
    rw [(by rw [jround_eq_floor]; norm_num : jround (((2.5:ℚ) - 1) * 100) = 150)]
    decide
  · simp only [formatAmericanOdds]
    rw [if_pos (by norm_num : (1:ℚ) < 1.91 ∧ (1.91:ℚ) < 10), if_neg (by norm_num : ¬ ((2:ℚ) ≤ 1.91))]
    rw [(by rw [jround_eq_floor]; norm_num : jround ((-100:ℚ) / ((1.91:ℚ) - 1)) = -110)]
    decide

/-- C10: `formatAmericanOdds` is total, its output is a non-empty string that
begins with `'+'` or `'-'`, absent input yields `"+100"`, and the boundary
values 1 and 10 are excluded from the decimal branch and format as `"+1"` and
`"+10"`. -/
theorem spec_C10_format_total_signed (o : Option ℚ) :
    formatAmericanOdds o ≠ "" ∧
    ((formatAmericanOdds o).data.head? = some '+' ∨
      (formatAmericanOdds o).data.head? = some '-') ∧
    formatAmericanOdds none = "+100" ∧
    formatAmericanOdds (some 1) = "+1" ∧
    formatAmericanOdds (some 10) = "+10" := by
  have sign : (formatAmericanOdds o).data.head? = some '+' ∨
      (formatAmericanOdds o).data.head? = some '-' := by
    match o with
    | none => exact Or.inl rfl
    | some v =>
      simp only [formatAmericanOdds]
      by_cases h : 1 < v ∧ v < 10
      · rw [if_pos h]
        by_cases h2 : 2 ≤ v
        · rw [if_pos h2]
          exact Or.inl (plus_append_head _)
        · rw [if_neg h2]
          refine Or.inr (intToString_head_neg _ (jround_lt_zero _ ?_))
          have hpos : 0 < v - 1 := by linarith [h.1]
          have hlt : v - 1 < 1 := by linarith [lt_of_not_le h2]
          have h100 : (100 : ℚ) < 100 / (v - 1) := by
            rw [lt_div_iff₀ hpos]
            nlinarith
          rw [neg_div]
          linarith
      · rw [if_neg h]
        by_cases h0 : 0 ≤ v
        · rw [if_pos h0]
          exact Or.inl (plus_append_head _)
        · rw [if_neg h0]
          simp only [ratToString]
          rw [if_pos (lt_of_not_le h0)]
          exact Or.inr (minus_append_head _)
  refine ⟨?_, sign, rfl, ?_, ?_⟩
  · rcases sign with h | h
    · exact ne_empty_of_head _ _ h
    · exact ne_empty_of_head _ _ h
  · simp only [formatAmericanOdds]
    rw [if_neg (by norm_num), if_pos (by norm_num : (0:ℚ) ≤ 1)]
    rw [show (1:ℚ) = ((1:ℕ):ℚ) by norm_num, ratToString_natCast]
    decide
  · simp only [formatAmericanOdds]
    rw [if_neg (by norm_num), if_pos (by norm_num : (0:ℚ) ≤ 10)]
    rw [show (10:ℚ) = ((10:ℕ):ℚ) by norm_num, ratToString_natCast]
    decide

/-- String append acts as list append on the underlying characters. -/
theorem strData_append (a b : String) : (a ++ b).data = a.data ++ b.data := by
  obtain ⟨l⟩ := a
  obtain ⟨m⟩ := b
  rfl

/-- Applying `Nat.digitChar` to a digit gives a decimal digit character. -/
theorem digitChar_isDigit (m : ℕ) (h : m < 10) : (Nat.digitChar m).isDigit = true := by
  interval_cases m <;> decide

/-- All characters produced by `natDigits` are decimal digits. -/
theorem natDigits_all_digit (f n : ℕ) : (natDigits f n).all Char.isDigit = true := by
  induction f generalizing n with
  | zero => rfl
  | succ f ih =>
    simp only [natDigits]
    by_cases h : n < 10
    · rw [if_pos h]
      simp [digitChar_isDigit n h]
    · rw [if_neg h]
      simp [List.all_append, ih, digitChar_isDigit (n % 10) (Nat.mod_lt _ (by norm_num))]

/-- All characters of `natToString` are decimal digits. -/
theorem natToString_all_digit (n : ℕ) : (natToString n).data.all Char.isDigit = true :=
  natDigits_all_digit (n + 1) n

/-- Rounding with `jround` is non-negative on non-negative input. -/
theorem jround_nonneg (q : ℚ) (h : 0 ≤ q) : 0 ≤ jround q := by
  rw [jround_eq_floor]
  rw [show (0:ℤ) = ⌊(1/2 : ℚ)⌋ by norm_num]
  exact Int.floor_le_floor (by linarith)

/-- The character content of `fixed1Str`: digits and a dot, never empty. -/
theorem fixed1Str_shape (m : ℕ) :
    (fixed1Str m).data.all (fun c => c.isDigit || c == '.') = true ∧
    (fixed1Str m).data ≠ [] := by
  simp only [fixed1Str, strData_append]
  constructor
  · simp only [List.all_append, Bool.and_eq_true]
    refine ⟨⟨?_, by decide⟩, ?_⟩
    · have h := natToString_all_digit (m / 10)
      simp only [List.all_eq_true] at h ⊢
      intro c hc
      simp [h c hc]
    · simp [digitChar_isDigit (m % 10) (Nat.mod_lt _ (by norm_num))]
  · intro hcon
    have := congrArg List.length hcon
    simp [List.length_append] at this

/-- Recognizer for the `O/U <number>` display string shape: the literal
prefix `"O/U "` followed by a non-empty run of digits and dots. -/
def ouFormB (s : String) : Bool :=
  match s.data with
  | 'O' :: '/' :: 'U' :: ' ' :: rest => !rest.isEmpty && rest.all (fun c => c.isDigit || c == '.')
  | _ => false

/-- An `"O/U "`-prefixed `toFixed(1)` rendering of a non-negative value has the
`O/U <number>` shape. -/
theorem ouFormB_OU (q : ℚ) (h : 0 ≤ q) : ouFormB ("O/U " ++ jsToFixed1 q) = true := by
  simp only [jsToFixed1]
  rw [if_neg (not_lt.mpr (jround_nonneg _ (by linarith : (0:ℚ) ≤ q * 10)))]
  obtain ⟨hall, hne⟩ := fixed1Str_shape (jround (q * 10)).toNat
  simp only [ouFormB, strData_append]
  simp only [List.cons_append, List.nil_append]
  simp [hall, hne]

/-- A lookup with default is bounded below when the whole table and the
default are. -/
theorem lookupOr_ge (l : List (String × ℚ)) (k : String) (d c : ℚ)
    (hl : ∀ p ∈ l, c ≤ p.2) (hd : c ≤ d) : c ≤ lookupOr l k d := by
  unfold lookupOr
  cases hfind : l.find? (fun p => p.1 == k) with
  | none => exact hd
  | some p => exact hl p (List.mem_of_find?_eq_some hfind)

/-- Every points-for table entry is at least 100. -/
theorem team_avg_points_ge (p : String × ℚ) (hp : p ∈ TEAM_AVG_POINTS) : (100:ℚ) ≤ p.2 := by
  fin_cases hp <;> norm_num

/-- Every points-allowed table entry is at least 100. -/
theorem team_avg_points_allowed_ge (p : String × ℚ) (hp : p ∈ TEAM_AVG_POINTS_ALLOWED) :
    (100:ℚ) ≤ p.2 := by
  fin_cases hp <;> norm_num

/-- The predicted base total is at least 200 for every pair of team names. -/
theorem baseTotal_ge (home away : String) :
    (200:ℚ) ≤ round1 ((lookupOr TEAM_AVG_POINTS home 112 + lookupOr TEAM_AVG_POINTS_ALLOWED away 113) / 2 +
      (lookupOr TEAM_AVG_POINTS away 112 + lookupOr TEAM_AVG_POINTS_ALLOWED home 113) / 2) := by
  have h1 := lookupOr_ge TEAM_AVG_POINTS home 112 100 team_avg_points_ge (by norm_num)
  have h2 := lookupOr_ge TEAM_AVG_POINTS away 112 100 team_avg_points_ge (by norm_num)
  have h3 := lookupOr_ge TEAM_AVG_POINTS_ALLOWED home 113 100 team_avg_points_allowed_ge (by norm_num)
  have h4 := lookupOr_ge TEAM_AVG_POINTS_ALLOWED away 113 100 team_avg_points_allowed_ge (by norm_num)
  simp only [round1, jround_eq_floor]
  have hfloor : (2000:ℤ) ≤ ⌊((lookupOr TEAM_AVG_POINTS home 112 + lookupOr TEAM_AVG_POINTS_ALLOWED away 113) / 2 +
      (lookupOr TEAM_AVG_POINTS away 112 + lookupOr TEAM_AVG_POINTS_ALLOWED home 113) / 2) * 10 + 1/2⌋ := by
    rw [Int.le_floor]
    push_cast
    linarith
  have : ((2000:ℤ):ℚ) ≤ _ := Int.cast_le.mpr hfloor
  push_cast at this
  linarith

/-- C7: normalizing an empty raw-quote list returns the deterministic
model-derived fallback set of exactly 4 entries, each with an overUnder string
of the form `O/U <number>`. -/
theorem spec_C7_empty_quotes_fallback (home away : String) :
    parseOddsApiResponse [] home away = generateDataDrivenOdds home away ∧
    (parseOddsApiResponse [] home away).length = 4 ∧
    ((parseOddsApiResponse [] home away).all (fun e => ouFormB e.odds.overUnder)) = true := by
  have hp : parseOddsApiResponse [] home away = generateDataDrivenOdds home away := rfl
  refine ⟨hp, ?_, ?_⟩
  · rw [hp]
    rfl
  · rw [hp]
    have hbt := baseTotal_ge home away
    simp only [generateDataDrivenOdds, List.all_cons, List.all_nil]
    rw [ouFormB_OU _ (by linarith), ouFormB_OU _ (by linarith),
        ouFormB_OU _ (by linarith), ouFormB_OU _ (by linarith)]
    rfl

/-- C8: the normalizer is deterministic — two invocations on identical input
yield identical output.  Both the parsing path and the synthetic-fallback path
are embedded as pure functions because the source functions perform no I/O and
never sample randomness (`Math.random` appears only in the GameModal
historical-stats placeholder, outside the normalizer). -/
theorem spec_C8_normalizer_deterministic (bookmakers : List Bookmaker) (home away : String) :
    parseOddsApiResponse bookmakers home away = parseOddsApiResponse bookmakers home away ∧
    generateDataDrivenOdds home away = generateDataDrivenOdds home away ∧
    predict home away = predict home away :=
  ⟨rfl, rfl, rfl⟩

/-- A raw DraftKings quote with no markets (counterexample input for C1). -/
def dkQuote : Bookmaker := { key := "draftkings", title := "DraftKings", markets := [] }

/-- A raw FanDuel quote with no markets (witness input for C1). -/
def fdQuote : Bookmaker := { key := "fanduel", title := "FanDuel", markets := [] }

/-- C1 counterexample: a payload containing a single DraftKings quote yields
2 entries (DraftKings plus the synthesized Caesars), not 4. -/
theorem spec_C1_counterexample :
    (parseOddsApiResponse [dkQuote] "A" "B").length = 2 ∧
    (parseOddsApiResponse [dkQuote] "A" "B").length ≠ 4 := by
  constructor
  · decide
  · decide

/-- The synthesized Caesars quote always carries the key `"caesars"`. -/
theorem generateMockCaesars_key (bms : List Bookmaker) (h a : String) :
    (generateMockCaesars bms h a).key = "caesars" := by
  unfold generateMockCaesars
  dsimp only
  split <;> rfl

/-- The synthesized Caesars quote display-names to `"Caesars"`. -/
theorem displayNameOf_mock (bms : List Bookmaker) (h a : String) :
    displayNameOf (generateMockCaesars bms h a) = "Caesars" := by
  simp only [displayNameOf, generateMockCaesars_key]
  rw [show standardKey "caesars" = "caesars" from by decide]
  simp

/-- The display name of a converted entry is `displayNameOf` of its quote. -/
theorem convertBookmaker_name (h a : String) (b : Bookmaker) :
    (convertBookmaker h a b).name = displayNameOf b := rfl

/-- C1 (amended): the normalizer returns one entry per filtered input quote,
in filtered-input order, with the synthesized Caesars entry appended last when
the filtered set is non-empty and lacks Caesars; the count is the filtered
count plus one (so four exactly when three canonical quotes were supplied). -/
theorem spec_C1_order_and_count (bookmakers : List Bookmaker) (home away : String)
    (hne : filteredBookmakers bookmakers ≠ [])
    (hnc : hasCaesarsIn (filteredBookmakers bookmakers) = false) :
    (parseOddsApiResponse bookmakers home away).length =
      (filteredBookmakers bookmakers).length + 1 ∧
    (parseOddsApiResponse bookmakers home away).map BettingSite.name =
      (filteredBookmakers bookmakers).map displayNameOf ++ ["Caesars"] := by
  have hb : bookmakers ≠ [] := by
    intro h
    apply hne
    rw [h]
    rfl
  have hbe : bookmakers.isEmpty = false := by
    cases bookmakers with
    | nil => exact absurd rfl hb
    | cons x t => rfl
  have hlen : 0 < (filteredBookmakers bookmakers).length := List.length_pos.mpr hne
  have hcond : (!hasCaesarsIn (filteredBookmakers bookmakers) &&
      decide (0 < (filteredBookmakers bookmakers).length)) = true := by
    rw [hnc]
    simp [hlen]
  have hfbne : (filteredBookmakers bookmakers ++
      [generateMockCaesars (filteredBookmakers bookmakers) home away]).isEmpty = false := by
    cases hcase : filteredBookmakers bookmakers with
    | nil => exact absurd hcase hne
    | cons x t => rfl
  simp only [parseOddsApiResponse, hbe, Bool.false_eq_true, if_false, hcond, if_true, hfbne]
  constructor
  · rw [List.length_map, List.length_append]
    rfl
  · rw [List.map_map, List.map_append]
    simp [Function.comp, convertBookmaker_name, displayNameOf_mock]

/-- Witness for C1 (amended): a single FanDuel quote produces one entry for
that quote followed by the synthesized Caesars entry. -/
theorem spec_C1_witness :
    (parseOddsApiResponse [fdQuote] "A" "B").length = (filteredBookmakers [fdQuote]).length + 1 ∧
    (parseOddsApiResponse [fdQuote] "A" "B").map BettingSite.name =
      (filteredBookmakers [fdQuote]).map displayNameOf ++ ["Caesars"] :=
  spec_C1_order_and_count [fdQuote] "A" "B" (by decide) (by decide)

/-- A raw quote qualifies for the Caesars average when it has both markets and
all three matchable outcomes (the loop guard inside `generateMockCaesars`). -/
def validQuote (homeTeam awayTeam : String) (b : Bookmaker) : Bool :=
  match b.markets.find? (fun m => m.key == "h2h"), b.markets.find? (fun m => m.key == "totals") with
  | some h2hMarket, some totalsMarket =>
    (findTeamOutcome homeTeam "home" h2hMarket.outcomes).isSome &&
    (findTeamOutcome awayTeam "away" h2hMarket.outcomes).isSome &&
    (findOverOutcome totalsMarket.outcomes).isSome
  | _, _ => false

/-- The matched home moneyline price of a quote (0 when unmatched). -/
def homePriceOf (homeTeam : String) (b : Bookmaker) : ℚ :=
  match b.markets.find? (fun m => m.key == "h2h") with
  | some m =>
    match findTeamOutcome homeTeam "home" m.outcomes with
    | some o => o.price
    | none => 0
  | none => 0

/-- The matched away moneyline price of a quote (0 when unmatched). -/
def awayPriceOf (awayTeam : String) (b : Bookmaker) : ℚ :=
  match b.markets.find? (fun m => m.key == "h2h") with
  | some m =>
    match findTeamOutcome awayTeam "away" m.outcomes with
    | some o => o.price
    | none => 0
  | none => 0

/-- The matched Over totals point of a quote (0 when unmatched). -/
def overPointOf (b : Bookmaker) : ℚ :=
  match b.markets.find? (fun m => m.key == "totals") with
  | some m =>
    match findOverOutcome m.outcomes with
    | some o => o.point
    | none => 0
  | none => 0

/-- On a qualifying quote the accumulator adds the three matched values and
bumps the count. -/
theorem mockStep_valid (h a : String) (s : ℚ × ℚ × ℚ × Nat) (b : Bookmaker)
    (hv : validQuote h a b = true) :
    mockStep h a s b =
      (s.1 + homePriceOf h b, s.2.1 + awayPriceOf a b, s.2.2.1 + overPointOf b, s.2.2.2 + 1) := by
  unfold mockStep validQuote at *
  cases hm1 : b.markets.find? (fun m => m.key == "h2h") with
  | none => rw [hm1] at hv; exact absurd hv (by simp)
  | some m1 =>
    cases hm2 : b.markets.find? (fun m => m.key == "totals") with
    | none => rw [hm1, hm2] at hv; exact absurd hv (by simp)
    | some m2 =>
      rw [hm1, hm2] at hv
      simp only [Bool.and_eq_true, Option.isSome_iff_exists] at hv
      obtain ⟨⟨⟨o1, ho1⟩, o2, ho2⟩, o3, ho3⟩ := hv
      simp only [homePriceOf, awayPriceOf, overPointOf, hm1, hm2, ho1, ho2, ho3]

/-- On a non-qualifying quote the accumulator is unchanged. -/
theorem mockStep_invalid (h a : String) (s : ℚ × ℚ × ℚ × Nat) (b : Bookmaker)
    (hv : validQuote h a b = false) : mockStep h a s b = s := by
  cases hm1 : b.markets.find? (fun m => m.key == "h2h") with
  | none => simp only [mockStep, hm1]
  | some m1 =>
    cases hm2 : b.markets.find? (fun m => m.key == "totals") with
    | none => simp only [mockStep, hm1, hm2]
    | some m2 =>
      unfold validQuote at hv
      simp only [hm1, hm2] at hv
      cases ho1 : findTeamOutcome h "home" m1.outcomes with
      | none => simp only [mockStep, hm1, hm2, ho1]
      | some o1 =>
        cases ho2 : findTeamOutcome a "away" m1.outcomes with
        | none => simp only [mockStep, hm1, hm2, ho1, ho2]
        | some o2 =>
          cases ho3 : findOverOutcome m2.outcomes with
          | none => simp only [mockStep, hm1, hm2, ho1, ho2, ho3]
          | some o3 =>
            rw [ho1, ho2, ho3] at hv
            simp at hv

/-- The accumulation loop of `generateMockCaesars` computes, over the
qualifying quotes, the three sums and the count. -/
theorem mockStep_foldl (h a : String) (bms : List Bookmaker) (s : ℚ × ℚ × ℚ × Nat) :
    bms.foldl (mockStep h a) s =
      (s.1 + ((bms.filter (validQuote h a)).map (homePriceOf h)).sum,
       s.2.1 + ((bms.filter (validQuote h a)).map (awayPriceOf a)).sum,
       s.2.2.1 + ((bms.filter (validQuote h a)).map overPointOf).sum,
       s.2.2.2 + (bms.filter (validQuote h a)).length) := by
  induction bms generalizing s with
  | nil => simp
  | cons b t ih =>
    simp only [List.foldl_cons, List.filter_cons]
    by_cases hv : validQuote h a b = true
    · rw [if_pos hv, mockStep_valid h a s b hv, ih]
      simp only [List.map_cons, List.sum_cons, List.length_cons]
      refine congrArg₂ _ (by ring) (congrArg₂ _ (by ring) (congrArg₂ _ (by ring) (by omega)))
    · rw [if_neg hv, mockStep_invalid h a s b (Bool.not_eq_true _ ▸ hv), ih]

/-- C5 (amended): when the filtered set lacks Caesars, the synthesized entry
averages only over quotes with both markets and matchable outcomes; its home
price is the *rounded* average home price plus 5, its away price the rounded
average away price minus 5, and its totals point the 1-decimal-rounded average
point minus 0.5; with no qualifying quote it uses the fixed defaults
-110 / -110 / 215.5. -/
theorem spec_C5_mock_caesars_averages (bms : List Bookmaker) (home away : String) :
    generateMockCaesars bms home away =
      (if 0 < (bms.filter (validQuote home away)).length then
        { key := "caesars", title := "Caesars",
          markets := [
            { key := "h2h", outcomes := [
              ⟨home, ((jround (((bms.filter (validQuote home away)).map (homePriceOf home)).sum /
                  ((bms.filter (validQuote home away)).length : ℚ)) : ℤ) : ℚ) + 5, 0⟩,
              ⟨away, ((jround (((bms.filter (validQuote home away)).map (awayPriceOf away)).sum /
                  ((bms.filter (validQuote home away)).length : ℚ)) : ℤ) : ℚ) - 5, 0⟩] },
            { key := "totals", outcomes := [
              ⟨"Over", 0, round1 (((bms.filter (validQuote home away)).map overPointOf).sum /
                  ((bms.filter (validQuote home away)).length : ℚ)) - 0.5⟩,
              ⟨"Under", 0, 0⟩] }] }
      else
        { key := "caesars", title := "Caesars",
          markets := [
            { key := "h2h", outcomes := [⟨home, -110, 0⟩, ⟨away, -110, 0⟩] },
            { key := "totals", outcomes := [⟨"Over", 0, 215.5⟩, ⟨"Under", 0, 0⟩] }] }) := by
  simp only [generateMockCaesars, mockStep_foldl, zero_add, Nat.zero_add]

/-- A fully populated DraftKings quote (C5 counterexample input). -/
def dkFull : Bookmaker :=
  { key := "draftkings", title := "DraftKings",
    markets := [
      { key := "h2h", outcomes := [⟨"A", 100, 0⟩, ⟨"B", -120, 0⟩] },
      { key := "totals", outcomes := [⟨"Over", 0, 215⟩, ⟨"Under", 0, 0⟩] }] }

/-- A fully populated FanDuel quote (C5 counterexample input). -/
def fdFull : Bookmaker :=
  { key := "fanduel", title := "FanDuel",
    markets := [
      { key := "h2h", outcomes := [⟨"A", 101, 0⟩, ⟨"B", -130, 0⟩] },
      { key := "totals", outcomes := [⟨"Over", 0, 216⟩, ⟨"Under", 0, 0⟩] }] }

/-- C5 counterexample: with source home prices 100 and 101 the synthesized
Caesars home price is `Math.round(100.5) + 5 = 106`, while the claimed
(unrounded) average plus 5 is `105.5`. -/
theorem spec_C5_counterexample :
    generateMockCaesars [dkFull, fdFull] "A" "B" =
      { key := "caesars", title := "Caesars",
        markets := [
          { key := "h2h", outcomes := [⟨"A", 106, 0⟩, ⟨"B", -130, 0⟩] },
          { key := "totals", outcomes := [⟨"Over", 0, 215⟩, ⟨"Under", 0, 0⟩] }] } ∧
    ((100:ℚ) + 101) / 2 + 5 ≠ 106 := by
  constructor
  · have h1 : validQuote "A" "B" dkFull = true := by decide
    have h2 : validQuote "A" "B" fdFull = true := by decide
    have hp1 : homePriceOf "A" dkFull = 100 := rfl
    have hp2 : homePriceOf "A" fdFull = 101 := rfl
    have ha1 : awayPriceOf "B" dkFull = -120 := rfl
    have ha2 : awayPriceOf "B" fdFull = -130 := rfl
    have ho1 : overPointOf dkFull = 215 := rfl
    have ho2 : overPointOf fdFull = 216 := rfl
    simp only [generateMockCaesars, mockStep_foldl, List.filter_cons, List.filter_nil, h1, h2,
      if_true, List.map_cons, List.map_nil, List.sum_cons, List.sum_nil, List.length_cons,
      List.length_nil, hp1, hp2, ha1, ha2, ho1, ho2, zero_add, Nat.zero_add]
    norm_num [jround_eq_floor, round1]
  · norm_num
